import Mathlib

/-!
Verification development for the movie-memory client bundle.

The repository ships the Jest test suites for its typed API client
(`lib/api.ts`, exercised by `__tests__/api-client.test.ts`) and for the
optimistic inline editor (`components/MovieEditor.tsx`, exercised by
`__tests__/movie-edit.test.tsx`), together with a README describing the
30-second fact cache (`hooks/useFactCache.ts`).  The implementation files
themselves are not among the sources, so the definitions below are modelled
from the specification's normalization algorithm (§4.1), cache contract
(§4.2) and editor state machine (§4.3), pinned down further by the shipped
tests where they speak.
-/

namespace MovieMemory

/-! ### JSON values and transport outcomes -/

/-- Parsed JSON value, the shape `response.json()` resolves to. -/
inductive Json where
  | null
  | bool (b : Bool)
  | num (n : Int)
  | str (s : String)
  | arr (elems : List Json)
  | obj (fields : List (String × Json))
deriving Repr

/-- Field lookup in a JSON object's field list (first match wins). -/
def lookupField : List (String × Json) → String → Option Json
  | [], _ => none
  | (k, v) :: rest, key => if k = key then some v else lookupField rest key

/-- Modelled from the spec: the failure-body convention of §6 — a string
`error` field counts only when present and non-empty (JS truthiness of
`body.error`), matching `lib/api.ts`'s extraction of the server message. -/
def errorField (body : Json) : Option String :=
  match body with
  | Json.obj fields =>
    match lookupField fields "error" with
    | some (Json.str s) => if s = "" then none else some s
    | _ => none
  | _ => none

/-- Outcome of one `fetch` call: either the promise rejects before any
response is obtained (carrying the runtime's error message), or a response
arrives with a status code and a body that either parses as JSON (`some`)
or fails to parse (`none`). -/
inductive TransportOutcome where
  | failure (message : String)
  | response (status : Nat) (body : Option Json)

/-- Discriminated result returned by every client operation
(`ApiResult<T>` in `types/index.ts`): success carries the typed payload,
failure carries a normalized status code and a human-readable message. -/
inductive ApiResult (T : Type) where
  | ok (data : T)
  | err (status : Nat) (error : String)
deriving DecidableEq, Repr

/-! ### Typed client (`lib/api.ts`) -/

/-- Outbound request: method, path and optional JSON body. -/
structure Request where
  method : String
  path : String
  body : Option Json

/-- Modelled from the spec: the error message `lib/api.ts` synthesizes for a
failure body with no usable `error` field (§4.1 step 3, a message embedding
the status code; the test suite only requires it to contain `"500"`). -/
def fallbackMessage (status : Nat) : String :=
  "Request failed with status " ++ toString status

/-- Modelled from the spec: the message text for a failure response body,
`error` field when present and non-empty, otherwise the synthesized one. -/
def responseError (status : Nat) (body : Json) : String :=
  match errorField body with
  | some e => e
  | none => fallbackMessage status

/-- Modelled from the spec: the normalization algorithm of §4.1 that
`lib/api.ts` applies identically to every operation.  A pre-response
transport failure becomes `err 0 message`; a non-parseable body becomes
`err status "Unexpected response from server"` regardless of status; a
parseable body yields `ok body` for status in [200,300) and otherwise
`err status` with the extracted or synthesized message.  The function is
total, so no exception ever reaches the caller. -/
def normalizeOutcome (out : TransportOutcome) : ApiResult Json :=
  match out with
  | TransportOutcome.failure msg => ApiResult.err 0 msg
  | TransportOutcome.response status none =>
    ApiResult.err status "Unexpected response from server"
  | TransportOutcome.response status (some body) =>
    if 200 ≤ status ∧ status < 300 then ApiResult.ok body
    else ApiResult.err status (responseError status body)

/-- Request issued by `getMe` (`GET /api/me`). -/
def getMeRequest : Request := ⟨"GET", "/api/me", none⟩

/-- Request issued by `updateMovie` (`PUT /api/me/movie` with body
`{movie: title}`, as pinned by the `sends a PUT request` test). -/
def updateMovieRequest (title : String) : Request :=
  ⟨"PUT", "/api/me/movie", some (Json.obj [("movie", Json.str title)])⟩

/-- Request issued by `getFact` (`GET /api/fact`). -/
def getFactRequest : Request := ⟨"GET", "/api/fact", none⟩

/-- Modelled from the spec: `getMe` issues its request through the ambient
transport (`global.fetch` in the tests) and normalizes the outcome. -/
def getMe (transport : Request → TransportOutcome) : ApiResult Json :=
  normalizeOutcome (transport getMeRequest)

/-- Modelled from the spec: `updateMovie` forwards the given title verbatim
(§4.1: the client performs no client-side validation) and normalizes. -/
def updateMovie (title : String) (transport : Request → TransportOutcome) :
    ApiResult Json :=
  normalizeOutcome (transport (updateMovieRequest title))

/-- Modelled from the spec: `getFact` issues its request and normalizes. -/
def getFact (transport : Request → TransportOutcome) : ApiResult Json :=
  normalizeOutcome (transport getFactRequest)

/-! ### Fact cache (`hooks/useFactCache.ts`) -/

/-- TTL of the fact cache, in milliseconds (README: "30-second client-side
fact cache"; spec §4.2: fixed configuration constant, 30 seconds). -/
def FACT_TTL_MS : Nat := 30000

/-- Cache entry (`CacheEntry<T>` of the spec's data model): the stored
value, its absolute expiry instant, and the key it was stored under. -/
structure CacheEntry (T : Type) where
  value : T
  expiresAt : Nat
  key : String
deriving DecidableEq, Repr

/-- The cache's entry map, one entry per key. -/
def Cache (T : Type) : Type := String → Option (CacheEntry T)

/-- Empty cache. -/
def emptyCache (T : Type) : Cache T := fun _ => none

/-- Store an entry under a key, replacing any previous entry. -/
def cacheInsert (c : Cache T) (k : String) (e : CacheEntry T) : Cache T :=
  fun k' => if k' = k then some e else c k'

/-- Modelled from the spec: `invalidate(key)` removes any entry for `key`
immediately and unconditionally (§4.2). -/
def invalidate (c : Cache T) (k : String) : Cache T :=
  fun k' => if k' = k then none else c k'

/-- Modelled from the spec: the miss path of `read` — invoke the loader
and, only on a successful result, store `{value, expiresAt: now + TTL}`;
a failed result is never cached (§4.2).  The third component records that
the loader was invoked. -/
def runLoader (c : Cache T) (now : Nat) (k : String) (loader : ApiResult T) :
    ApiResult T × Cache T × Bool :=
  match loader with
  | ApiResult.ok v =>
    (ApiResult.ok v, cacheInsert c k ⟨v, now + FACT_TTL_MS, k⟩, true)
  | ApiResult.err st e => (ApiResult.err st e, c, true)

/-- Branch of `read` on the entry currently stored under the key: a live
(non-expired) entry is returned without invoking the loader; a missing or
expired entry falls through to the loader. -/
def readEntry (c : Cache T) (now : Nat) (k : String) (loader : ApiResult T) :
    Option (CacheEntry T) → ApiResult T × Cache T × Bool
  | some entry =>
    if now < entry.expiresAt then (ApiResult.ok entry.value, c, false)
    else runLoader c now k loader
  | none => runLoader c now k loader

/-- Modelled from the spec: `read(key, loader)` of `useFactCache.ts` — if a
live (non-expired) entry exists for `key`, return its value without
invoking the loader; otherwise run the loader (§4.2; expiry is checked at
read time).  The loader argument is the result its promise resolves to;
the Boolean in the output records whether the loader was invoked. -/
def read (c : Cache T) (now : Nat) (k : String) (loader : ApiResult T) :
    ApiResult T × Cache T × Bool :=
  readEntry c now k loader (c k)

/-! ### Optimistic editor (`components/MovieEditor.tsx`) -/

/-- Editor mode: display, editing, or a non-interruptible in-flight save. -/
inductive Mode where
  | display
  | editing
  | saving
deriving DecidableEq, Repr

/-- State bundle `EditorDraftState` of the spec's data model: mode, draft,
last value believed persisted, and the inline error message. -/
structure EditorState where
  mode : Mode
  draftValue : String
  committedValue : String
  errorMessage : Option String
deriving DecidableEq, Repr

/-- Observable side effects of the editor, in emission order:
`notifyObserver v` is the `onMovieUpdated(v)` callback, `callUpdate t` is
the `updateMovie(t)` write, `notifyChanging` is the `onMovieChanging()`
cache-invalidation hook. -/
inductive Effect where
  | notifyObserver (value : String)
  | callUpdate (title : String)
  | notifyChanging
deriving DecidableEq, Repr

/-- JavaScript `String.prototype.trim()`: drop leading and trailing
whitespace.  Defined structurally over the character list so that it
evaluates on concrete inputs. -/
def trimString (s : String) : String :=
  String.mk
    (((s.data.dropWhile Char.isWhitespace).reverse.dropWhile
        Char.isWhitespace).reverse)

/-- Modelled from the spec: validation message shown for an empty or
whitespace-only submission (the tests only require an alert to render). -/
def validationMessage : String := "Movie title cannot be empty."

/-- Modelled from the spec: `display --(start edit)--> editing` copies
`committedValue` into `draftValue` and clears `errorMessage` (§4.3). -/
def startEdit (s : EditorState) : EditorState :=
  if s.mode = Mode.display then
    { s with mode := Mode.editing, draftValue := s.committedValue,
             errorMessage := none }
  else s

/-- Modelled from the spec: `editing --(cancel | Escape)--> display`
discards the draft; no network call (§4.3). -/
def cancelEdit (s : EditorState) : EditorState :=
  if s.mode = Mode.editing then
    { s with mode := Mode.display, errorMessage := none }
  else s

/-- Modelled from the spec: the synchronous part of `handleSave`, run when
Save is clicked (or Enter pressed), before the write's promise resolves.
In order (§4.3): an empty/whitespace-only draft sets the validation message
and stays in `editing` with no network call; a draft equal (after trim) to
`committedValue` is a no-op commit to `display` with no network call; a
non-trivial change moves to `saving`, optimistically notifies the observer
of the new (trimmed) value and issues the write with that value. -/
def submit (s : EditorState) : EditorState × List Effect :=
  if s.mode = Mode.editing then
    let trimmed := trimString s.draftValue
    if trimmed = "" then
      ({ s with errorMessage := some validationMessage }, [])
    else if trimmed = s.committedValue then
      ({ s with mode := Mode.display, errorMessage := none }, [])
    else
      ({ s with mode := Mode.saving, errorMessage := none },
        [Effect.notifyObserver trimmed, Effect.callUpdate trimmed])
  else (s, [])

/-- Success payload of `updateMovie` (`{favoriteMovie: string}`). -/
structure UpdateMovieData where
  favoriteMovie : String
deriving DecidableEq, Repr

/-- Modelled from the spec: the continuation run when the write's promise
resolves (§4.3).  `ok` commits: back to `display`, `committedValue` becomes
the confirmed server value, the cache-invalidation hook fires, and the
observer is notified a second time only if the server's value differs from
the optimistically shown (trimmed) draft.  `err` reverts: back to
`editing`, the observer is re-notified with the pre-edit `committedValue`,
`errorMessage` becomes the result's error string, and the draft input keeps
the user's attempted value. -/
def resolve (s : EditorState) (result : ApiResult UpdateMovieData) :
    EditorState × List Effect :=
  match result with
  | ApiResult.ok d =>
    ({ s with mode := Mode.display, committedValue := d.favoriteMovie,
              errorMessage := none },
      Effect.notifyChanging ::
        (if d.favoriteMovie = trimString s.draftValue then []
         else [Effect.notifyObserver d.favoriteMovie]))
  | ApiResult.err _ e =>
    ({ s with mode := Mode.editing, errorMessage := some e },
      [Effect.notifyObserver s.committedValue])

/-- One full submit attempt: the synchronous phase, then — only when it
reached `saving` — the resolution phase once the write settles on
`result`.  The trace concatenates the two phases in temporal order. -/
def submitAndResolve (s : EditorState) (result : ApiResult UpdateMovieData) :
    EditorState × List Effect :=
  let step := submit s
  if step.1.mode = Mode.saving then
    let fin := resolve step.1 result
    (fin.1, step.2 ++ fin.2)
  else step

/-- Modelled from the spec: the input's keydown handler — Enter submits
exactly as a Save click (test `submits on Enter key`), Escape cancels
(test `closes edit mode on Escape key`), any other key is inert. -/
def handleKeyDown (key : String) (s : EditorState) :
    EditorState × List Effect :=
  if key = "Enter" then submit s
  else if key = "Escape" then (cancelEdit s, [])
  else (s, [])

/-- Values the observer was notified of, in order, within a trace. -/
def notifications (trace : List Effect) : List String :=
  trace.filterMap fun e =>
    match e with
    | Effect.notifyObserver v => some v
    | _ => none

/-! ### Claims about the typed client -/

/-- Claim C1: for every transport-level failure (the fetch rejects with
message `msg` before any response is obtained), every client operation
(`getMe`, `updateMovie`, `getFact`) returns `{ok: false, status: 0,
error: msg}` with a non-empty error string; being total Lean functions
into `ApiResult`, the operations never throw to their caller. -/
theorem client_transport_failure_normalized
    (transport : Request → TransportOutcome) (msg title : String)
    (hdown : ∀ req, transport req = TransportOutcome.failure msg)
    (hmsg : msg ≠ "") :
    getMe transport = ApiResult.err 0 msg ∧
    updateMovie title transport = ApiResult.err 0 msg ∧
    getFact transport = ApiResult.err 0 msg ∧
    msg ≠ "" := by
  refine ⟨?_, ?_, ?_, hmsg⟩ <;>
    simp [getMe, updateMovie, getFact, hdown, normalizeOutcome]

/-- Witness for C1 at the test suite's concrete transport failure. -/
theorem client_transport_failure_normalized_witness :
    getMe (fun _ => TransportOutcome.failure "Failed to fetch")
      = ApiResult.err 0 "Failed to fetch" ∧
    updateMovie "Dune" (fun _ => TransportOutcome.failure "Failed to fetch")
      = ApiResult.err 0 "Failed to fetch" ∧
    getFact (fun _ => TransportOutcome.failure "Failed to fetch")
      = ApiResult.err 0 "Failed to fetch" ∧
    ("Failed to fetch" : String) ≠ "" :=
  client_transport_failure_normalized
    (fun _ => TransportOutcome.failure "Failed to fetch")
    "Failed to fetch" "Dune" (fun _ => rfl) (by decide)

/-- Claim C2: for every response whose status lies in [200,300) and whose
body parses as JSON, every client operation returns `{ok: true, data}`
with `data` equal to the parsed response body. -/
theorem client_success_returns_parsed_body
    (transport : Request → TransportOutcome) (st : Nat) (body : Json)
    (title : String)
    (hst : 200 ≤ st ∧ st < 300)
    (hresp : ∀ req, transport req = TransportOutcome.response st (some body)) :
    getMe transport = ApiResult.ok body ∧
    updateMovie title transport = ApiResult.ok body ∧
    getFact transport = ApiResult.ok body := by
  refine ⟨?_, ?_, ?_⟩ <;>
    simp [getMe, updateMovie, getFact, hresp, normalizeOutcome, hst.1, hst.2]

/-- Witness for C2 at the test suite's 200-response for `updateMovie`. -/
theorem client_success_returns_parsed_body_witness :
    getMe (fun _ => TransportOutcome.response 200
        (some (Json.obj [("favoriteMovie", Json.str "The Matrix")])))
      = ApiResult.ok (Json.obj [("favoriteMovie", Json.str "The Matrix")]) ∧
    updateMovie "The Matrix" (fun _ => TransportOutcome.response 200
        (some (Json.obj [("favoriteMovie", Json.str "The Matrix")])))
      = ApiResult.ok (Json.obj [("favoriteMovie", Json.str "The Matrix")]) ∧
    getFact (fun _ => TransportOutcome.response 200
        (some (Json.obj [("favoriteMovie", Json.str "The Matrix")])))
      = ApiResult.ok (Json.obj [("favoriteMovie", Json.str "The Matrix")]) :=
  client_success_returns_parsed_body
    (fun _ => TransportOutcome.response 200
      (some (Json.obj [("favoriteMovie", Json.str "The Matrix")])))
    200 (Json.obj [("favoriteMovie", Json.str "The Matrix")]) "The Matrix"
    (by decide) (fun _ => rfl)

/-- Claim C3: for every response whose status is outside [200,300) with a
parseable body, every client operation returns `ok: false` with `status`
equal to the response's actual status, and `error` equal to the body's
`error` field when that field is present (as a string) and non-empty,
otherwise the synthesized message, which contains the status code. -/
theorem client_failure_surfaces_status_and_error
    (transport : Request → TransportOutcome) (st : Nat) (body : Json)
    (title : String)
    (hst : ¬(200 ≤ st ∧ st < 300))
    (hresp : ∀ req, transport req = TransportOutcome.response st (some body)) :
    getMe transport = ApiResult.err st (responseError st body) ∧
    updateMovie title transport = ApiResult.err st (responseError st body) ∧
    getFact transport = ApiResult.err st (responseError st body) ∧
    (∀ e, errorField body = some e → responseError st body = e) ∧
    (errorField body = none →
      responseError st body
        = "Request failed with status " ++ toString st) := by
  refine ⟨?_, ?_, ?_, ?_, ?_⟩
  · simp [getMe, hresp, normalizeOutcome, hst]
  · simp [updateMovie, hresp, normalizeOutcome, hst]
  · simp [getFact, hresp, normalizeOutcome, hst]
  · intro e he; simp [responseError, he]
  · intro he; simp [responseError, fallbackMessage, he]

/-- Witness for C3 at the test suite's 401 response carrying an `error`
field, showing the body's message surfaced with the verbatim status. -/
theorem client_failure_surfaces_status_and_error_witness :
    getMe (fun _ => TransportOutcome.response 401
        (some (Json.obj [("error", Json.str "Unauthorized")])))
      = ApiResult.err 401 "Unauthorized" ∧
    updateMovie "Up" (fun _ => TransportOutcome.response 401
        (some (Json.obj [("error", Json.str "Unauthorized")])))
      = ApiResult.err 401 "Unauthorized" ∧
    getFact (fun _ => TransportOutcome.response 401
        (some (Json.obj [("error", Json.str "Unauthorized")])))
      = ApiResult.err 401 "Unauthorized" :=
  have h := client_failure_surfaces_status_and_error
    (fun _ => TransportOutcome.response 401
      (some (Json.obj [("error", Json.str "Unauthorized")])))
    401 (Json.obj [("error", Json.str "Unauthorized")]) "Up"
    (by decide) (fun _ => rfl)
  ⟨h.1, h.2.1, h.2.2.1⟩

/-- Claim C9: for every response whose body fails to parse as JSON, every
client operation returns `ok: false` with the response's status code and
the generic error `"Unexpected response from server"`, for every status
code and without exposing parse internals. -/
theorem client_malformed_body_generic_error
    (transport : Request → TransportOutcome) (st : Nat) (title : String)
    (hresp : ∀ req, transport req = TransportOutcome.response st none) :
    getMe transport = ApiResult.err st "Unexpected response from server" ∧
    updateMovie title transport
      = ApiResult.err st "Unexpected response from server" ∧
    getFact transport = ApiResult.err st "Unexpected response from server" := by
  refine ⟨?_, ?_, ?_⟩ <;>
    simp [getMe, updateMovie, getFact, hresp, normalizeOutcome]

/-- Witness for C9 at the test suite's non-JSON 503 response. -/
theorem client_malformed_body_generic_error_witness :
    getMe (fun _ => TransportOutcome.response 503 none)
      = ApiResult.err 503 "Unexpected response from server" ∧
    updateMovie "Heat" (fun _ => TransportOutcome.response 503 none)
      = ApiResult.err 503 "Unexpected response from server" ∧
    getFact (fun _ => TransportOutcome.response 503 none)
      = ApiResult.err 503 "Unexpected response from server" :=
  client_malformed_body_generic_error
    (fun _ => TransportOutcome.response 503 none) 503 "Heat" (fun _ => rfl)

/-! ### Claims about the fact cache -/

/-- Claim C6: a `read(k, loaderA)` whose loader succeeded and stored a
value, followed within the TTL by `read(k, loaderB)`, never invokes
`loaderB` (for any `loaderB`) and returns the stored value; and after
`invalidate(k)`, the next `read(k, loaderC)` does invoke its loader. -/
theorem cache_roundtrip_and_invalidate (T : Type) (c0 c1 : Cache T)
    (t1 t2 t3 : Nat) (k : String) (v : T) (loaderB loaderC : ApiResult T)
    (hstore : read c0 t1 k (ApiResult.ok v) = (ApiResult.ok v, c1, true))
    (httl : t2 < t1 + FACT_TTL_MS) :
    (read c1 t2 k loaderB).2.2 = false ∧
    (read c1 t2 k loaderB).1 = ApiResult.ok v ∧
    (read (invalidate c1 k) t3 k loaderC).2.2 = true := by
  have hc1 : c1 k = some ⟨v, t1 + FACT_TTL_MS, k⟩ := by
    unfold read at hstore
    cases hc : c0 k with
    | none =>
      rw [hc] at hstore
      simp [readEntry, runLoader, Prod.ext_iff] at hstore
      simp [← hstore, cacheInsert]
    | some entry =>
      rw [hc] at hstore
      by_cases hl : t1 < entry.expiresAt
      · simp [readEntry, hl, Prod.ext_iff] at hstore
      · simp [readEntry, hl, runLoader, Prod.ext_iff] at hstore
        simp [← hstore, cacheInsert]
  refine ⟨?_, ?_, ?_⟩
  · simp [read, hc1, readEntry, httl]
  · simp [read, hc1, readEntry, httl]
  · have hinv : invalidate c1 k k = none := by simp [invalidate]
    simp only [read, hinv]
    cases loaderC <;> simp [readEntry, runLoader]

/-- Witness for C6: a stored fact is served within the TTL without the
second loader running, and invalidation forces the third loader to run. -/
theorem cache_roundtrip_and_invalidate_witness :
    (read (cacheInsert (emptyCache Nat) "fact" ⟨7, 30000, "fact"⟩) 10000
        "fact" (ApiResult.err 503 "down")).2.2 = false ∧
    (read (cacheInsert (emptyCache Nat) "fact" ⟨7, 30000, "fact"⟩) 10000
        "fact" (ApiResult.err 503 "down")).1 = ApiResult.ok 7 ∧
    (read (invalidate
        (cacheInsert (emptyCache Nat) "fact" ⟨7, 30000, "fact"⟩) "fact") 10001
        "fact" (ApiResult.ok 9)).2.2 = true :=
  cache_roundtrip_and_invalidate Nat (emptyCache Nat)
    (cacheInsert (emptyCache Nat) "fact" ⟨7, 30000, "fact"⟩)
    0 10000 10001 "fact" 7 (ApiResult.err 503 "down") (ApiResult.ok 9)
    rfl (by decide)

/-- Claim C7: the cache never stores a failed loader result — after a read
whose loader was invoked and returned `ok: false`, the whole cache state is
unchanged, so a following read for the same key (at the same or any later
instant) invokes its loader again. -/
theorem cache_never_stores_failure (T : Type) (c : Cache T)
    (now now' : Nat) (k : String) (st : Nat) (e : String)
    (loader2 : ApiResult T)
    (hmono : now ≤ now')
    (hinv : (read c now k (ApiResult.err st e)).2.2 = true) :
    (read c now k (ApiResult.err st e)).2.1 = c ∧
    (read c now' k loader2).2.2 = true := by
  constructor
  · unfold read
    cases hc : c k with
    | none => simp [readEntry, runLoader]
    | some entry =>
      by_cases hl : now < entry.expiresAt
      · simp [readEntry, hl]
      · simp [readEntry, hl, runLoader]
  · unfold read at hinv ⊢
    cases hc : c k with
    | none => cases loader2 <;> simp [readEntry, runLoader]
    | some entry =>
      rw [hc] at hinv
      by_cases hl : now < entry.expiresAt
      · simp [readEntry, hl] at hinv
      · have hl' : ¬ now' < entry.expiresAt := fun h =>
          hl (lt_of_le_of_lt hmono h)
        cases loader2 <;> simp [readEntry, hl', runLoader]

/-- Witness for C7: a failing loader leaves the empty cache empty and the
immediately following read invokes its loader. -/
theorem cache_never_stores_failure_witness :
    (read (emptyCache Nat) 5 "fact-key" (ApiResult.err 500 "boom")).2.1
      = emptyCache Nat ∧
    (read (emptyCache Nat) 6 "fact-key" (ApiResult.ok 3)).2.2 = true :=
  cache_never_stores_failure Nat (emptyCache Nat) 5 6 "fact-key" 500 "boom"
    (ApiResult.ok 3) (by decide) rfl

/-! ### Claims about the optimistic editor -/

/-- Claim C4: submitting a non-trivial change (non-empty trimmed draft
differing from the committed value) emits the observer notification with
the new value already in the synchronous submit phase — together with the
write call — and for every eventual result the full trace is the submit
phase followed by the resolution phase, so the optimistic notification
strictly precedes anything that depends on the write's resolution. -/
theorem editor_optimistic_notification_precedes_resolution
    (s : EditorState) (result : ApiResult UpdateMovieData)
    (hm : s.mode = Mode.editing)
    (hne : trimString s.draftValue ≠ "")
    (hch : trimString s.draftValue ≠ s.committedValue) :
    (submit s).2 = [Effect.notifyObserver (trimString s.draftValue),
                    Effect.callUpdate (trimString s.draftValue)] ∧
    (submit s).1.mode = Mode.saving ∧
    (submitAndResolve s result).2
      = (submit s).2 ++ (resolve (submit s).1 result).2 := by
  refine ⟨?_, ?_, ?_⟩ <;> simp [submit, submitAndResolve, hm, hne, hch]

/-- Witness for C4 at the spec's example: editing "Inception" to
"The Matrix" notifies the observer in the submit phase. -/
theorem editor_optimistic_notification_witness :
    (submit ⟨Mode.editing, "The Matrix", "Inception", none⟩).2
      = [Effect.notifyObserver "The Matrix",
         Effect.callUpdate "The Matrix"] ∧
    (submit ⟨Mode.editing, "The Matrix", "Inception", none⟩).1.mode
      = Mode.saving ∧
    (submitAndResolve ⟨Mode.editing, "The Matrix", "Inception", none⟩
        (ApiResult.ok ⟨"The Matrix"⟩)).2
      = (submit ⟨Mode.editing, "The Matrix", "Inception", none⟩).2 ++
        (resolve (submit ⟨Mode.editing, "The Matrix", "Inception", none⟩).1
          (ApiResult.ok ⟨"The Matrix"⟩)).2 :=
  editor_optimistic_notification_precedes_resolution
    ⟨Mode.editing, "The Matrix", "Inception", none⟩
    (ApiResult.ok ⟨"The Matrix"⟩) (by decide) (by decide) (by decide)

/-- Claim C5: when the write resolves `ok: false`, the editor moves from
saving back to editing, the observer's last notification carries the
pre-edit committed value (the optimistic value is reverted), the error
message is the result's error string, and the draft input still holds the
user's attempted value. -/
theorem editor_reverts_on_failed_write
    (s : EditorState) (st : Nat) (e : String)
    (hm : s.mode = Mode.editing)
    (hne : trimString s.draftValue ≠ "")
    (hch : trimString s.draftValue ≠ s.committedValue) :
    (submitAndResolve s (ApiResult.err st e)).1.mode = Mode.editing ∧
    (notifications (submitAndResolve s (ApiResult.err st e)).2).getLast?
      = some s.committedValue ∧
    (submitAndResolve s (ApiResult.err st e)).1.errorMessage = some e ∧
    (submitAndResolve s (ApiResult.err st e)).1.draftValue = s.draftValue ∧
    (submitAndResolve s (ApiResult.err st e)).1.committedValue
      = s.committedValue := by
  refine ⟨?_, ?_, ?_, ?_, ?_⟩ <;>
    simp [submitAndResolve, submit, resolve, notifications, hm, hne, hch]

/-- Witness for C5 at the spec's example: a 500 failure while saving
"Dune" over "Inception" reverts to "Inception" with the server's message
and keeps the draft. -/
theorem editor_reverts_on_failed_write_witness :
    (submitAndResolve ⟨Mode.editing, "Dune", "Inception", none⟩
        (ApiResult.err 500 "Internal server error")).1.mode = Mode.editing ∧
    (notifications (submitAndResolve ⟨Mode.editing, "Dune", "Inception", none⟩
        (ApiResult.err 500 "Internal server error")).2).getLast?
      = some "Inception" ∧
    (submitAndResolve ⟨Mode.editing, "Dune", "Inception", none⟩
        (ApiResult.err 500 "Internal server error")).1.errorMessage
      = some "Internal server error" ∧
    (submitAndResolve ⟨Mode.editing, "Dune", "Inception", none⟩
        (ApiResult.err 500 "Internal server error")).1.draftValue = "Dune" ∧
    (submitAndResolve ⟨Mode.editing, "Dune", "Inception", none⟩
        (ApiResult.err 500 "Internal server error")).1.committedValue
      = "Inception" :=
  editor_reverts_on_failed_write ⟨Mode.editing, "Dune", "Inception", none⟩
    500 "Internal server error" (by decide) (by decide) (by decide)

/-- Claim C8, counterexample to the claim as stated: with an empty
committed value and an empty draft, the draft equals the committed value
after trimming, yet submitting leaves the editor in editing mode (the
empty/whitespace validation branch fires first), not display mode.  No
write call is made. -/
theorem editor_noop_commit_claim_cex :
    trimString (EditorState.mk Mode.editing "" "" none).draftValue
      = (EditorState.mk Mode.editing "" "" none).committedValue ∧
    (submit (EditorState.mk Mode.editing "" "" none)).2 = [] ∧
    (submit (EditorState.mk Mode.editing "" "" none)).1.mode
      ≠ Mode.display := by
  decide

/-- Claim C8 as amended: submitting a draft whose trimmed form is
non-empty and equals the committed value makes no write call (indeed emits
no effect at all) and puts the editor in display mode. -/
theorem editor_noop_commit_display
    (s : EditorState)
    (hm : s.mode = Mode.editing)
    (hne : trimString s.draftValue ≠ "")
    (heq : trimString s.draftValue = s.committedValue) :
    (submit s).1.mode = Mode.display ∧ (submit s).2 = [] := by
  have hne' : s.committedValue ≠ "" := heq ▸ hne
  constructor <;> simp [submit, hm, hne, heq, hne']

/-- Witness for amended C8: resubmitting "Inception" (with surrounding
whitespace) over committed "Inception" is a silent no-op commit. -/
theorem editor_noop_commit_display_witness :
    (submit ⟨Mode.editing, " Inception ", "Inception", none⟩).1.mode
      = Mode.display ∧
    (submit ⟨Mode.editing, " Inception ", "Inception", none⟩).2 = [] :=
  editor_noop_commit_display ⟨Mode.editing, " Inception ", "Inception", none⟩
    (by decide) (by decide) (by decide)

/-- Claim C10, counterexample to the claim as stated: with the typed draft
" Interstellar " (surrounding whitespace), pressing Enter invokes the
write with the trimmed value "Interstellar", not with the typed draft
value itself. -/
theorem editor_enter_typed_value_cex :
    (handleKeyDown "Enter"
        (EditorState.mk Mode.editing " Interstellar " "Inception" none)).2
      = [Effect.notifyObserver "Interstellar",
         Effect.callUpdate "Interstellar"] ∧
    Effect.callUpdate " Interstellar "
      ∉ (handleKeyDown "Enter"
          (EditorState.mk Mode.editing " Interstellar " "Inception" none)).2 := by
  decide

/-- Claim C10 as amended: in editing mode, pressing Enter in the input
runs exactly the same submit step as a Save click, and for a non-trivial
draft this invokes the write operation with the trimmed draft value. -/
theorem editor_enter_submits_like_save
    (s : EditorState)
    (hm : s.mode = Mode.editing)
    (hne : trimString s.draftValue ≠ "")
    (hch : trimString s.draftValue ≠ s.committedValue) :
    handleKeyDown "Enter" s = submit s ∧
    Effect.callUpdate (trimString s.draftValue)
      ∈ (handleKeyDown "Enter" s).2 := by
  constructor
  · simp [handleKeyDown]
  · simp [handleKeyDown, submit, hm, hne, hch]

/-- Witness for amended C10 at the test suite's input: Enter on the typed
draft "Interstellar" submits it to the write operation. -/
theorem editor_enter_submits_like_save_witness :
    handleKeyDown "Enter" ⟨Mode.editing, "Interstellar", "Inception", none⟩
      = submit ⟨Mode.editing, "Interstellar", "Inception", none⟩ ∧
    Effect.callUpdate "Interstellar"
      ∈ (handleKeyDown "Enter"
          ⟨Mode.editing, "Interstellar", "Inception", none⟩).2 :=
  editor_enter_submits_like_save
    ⟨Mode.editing, "Interstellar", "Inception", none⟩
    (by decide) (by decide) (by decide)

end MovieMemory
